import Mathlib

/-!
Verification of the merge-readiness analyzer of `gh-pr-analyzer`
(`src/gh_pr_analyzer/analyzer.py`), as a shallow embedding.

Raw GitHub JSON records become structures with `Option` fields (a `none`
field models an absent JSON key).  The analyzer `analyze_pr` is a pure
function returning `Option PRAnalysis`: `none` models the `KeyError`
raised by the Python code when a mandatory identity field is missing.

Two parts of the data model (`review_labels` and the lifecycle `state`)
are referenced by the repository's test suite but their implementation is
absent from the analyzer source; those two definitions are modelled from
the specification and are marked as such in their doc comments.
-/

/-- `MergeBlocker` dataclass of `analyzer.py`. -/
structure MergeBlocker where
  type : String
  description : String
  details : Option String := none
deriving DecidableEq

/-- `ReviewLabel` record: username and status parsed from a PR label name. -/
structure ReviewLabel where
  username : String
  status : String
deriving DecidableEq

/-- `PRAnalysis` dataclass of `analyzer.py` (plus the spec-described
`review_labels` and `state` fields, see module header). -/
structure PRAnalysis where
  repo : String
  pr_number : Int
  title : String
  url : String
  blockers : List MergeBlocker := []
  ci_status : String := "unknown"
  review_status : String := "unknown"
  comments_status : String := "unknown"
  conflicts_status : String := "unknown"
  unresolved_comment_count : Nat := 0
  failed_check_count : Nat := 0
  pending_check_count : Nat := 0
  failed_check_names : List String := []
  pending_check_names : List String := []
  unresolved_comment_urls : List String := []
  review_labels : List ReviewLabel := []
  state : String := "open"
deriving DecidableEq

/-- `PRAnalysis.is_mergeable` computed property: true iff no blockers. -/
def PRAnalysis.is_mergeable (a : PRAnalysis) : Bool :=
  a.blockers.length == 0

/-- `pr_data["base"]["repo"]` sub-object: `full_name` key and `private` key
(the latter renamed `priv`, `private` being a Lean keyword). -/
structure RepoData where
  full_name : Option String := none
  priv : Option Bool := none
deriving DecidableEq

/-- `pr_data["base"]` sub-object. -/
structure BaseData where
  repo : Option RepoData := none
deriving DecidableEq

/-- An entry of `pr_data["labels"]`. -/
structure LabelData where
  name : Option String := none
deriving DecidableEq

/-- The PR snapshot dictionary, restricted to the keys the analyzer reads. -/
structure PRData where
  base : Option BaseData := none
  number : Option Int := none
  title : Option String := none
  html_url : Option String := none
  mergeable_state : Option String := none
  mergeable : Option Bool := none
  labels : Option (List LabelData) := none
  draft : Option Bool := none
  merged : Option Bool := none
  state : Option String := none
deriving DecidableEq

/-- `review["user"]` sub-object. -/
structure UserData where
  login : Option String := none
deriving DecidableEq

/-- A review record: `state` and optional `user`. -/
structure ReviewData where
  state : Option String := none
  user : Option UserData := none
deriving DecidableEq

/-- `check["output"]` sub-object. -/
structure OutputData where
  summary : Option String := none
deriving DecidableEq

/-- A check-run record. -/
structure CheckRunData where
  status : Option String := none
  conclusion : Option String := none
  name : Option String := none
  output : Option OutputData := none
deriving DecidableEq

/-- A node of `thread["comments"]["nodes"]`. -/
structure CommentNode where
  url : Option String := none
deriving DecidableEq

/-- `thread["comments"]` sub-object. -/
structure CommentsData where
  nodes : Option (List CommentNode) := none
deriving DecidableEq

/-- A review-thread record from the GraphQL API. -/
structure ThreadData where
  isResolved : Option Bool := none
  comments : Option CommentsData := none
deriving DecidableEq

/-- Python `str.isspace` characters relevant to `str.strip()`. -/
def pyIsSpace (c : Char) : Bool :=
  c == ' ' || c == '\t' || c == '\n' || c == '\r' || c == '\x0b' || c == '\x0c'

/-- Python `str.strip()`: remove whitespace from both ends. -/
def pyStrip (s : String) : String :=
  String.mk (((s.toList.dropWhile pyIsSpace).reverse.dropWhile pyIsSpace).reverse)

/-- Python `str.lstrip()`: remove leading whitespace. -/
def pyLStrip (s : String) : String :=
  String.mk (s.toList.dropWhile pyIsSpace)

/-- Python `str.split("\n")` on a character list: explicit-separator split,
so the empty input yields `[[]]` (one empty field). -/
def splitNL : List Char → List (List Char)
  | [] => [[]]
  | x :: xs =>
    if x == '\n' then [] :: splitNL xs
    else
      match splitNL xs with
      | [] => [[x]]
      | r :: rs => (x :: r) :: rs

/-- Python `s.split("\n")` as a list of strings. -/
def pySplitLines (s : String) : List String :=
  (splitNL s.toList).map String.mk

/-- Python `l[-n:]`: the last `n` elements of a list. -/
def takeLast (n : Nat) (l : List String) : List String :=
  l.drop (l.length - n)

/-- Python `set(...)` followed by joining: deduplicate a list of strings,
keeping the first occurrence of each. -/
def pySet (l : List String) : List String :=
  l.foldl (fun acc x => if acc.contains x then acc else acc ++ [x]) []

/-- Python `s.startswith(p)` via character lists. -/
def pyStartsWith (s p : String) : Bool :=
  p.toList.isPrefixOf s.toList

/-- Python `s.endswith(p)` via character lists. -/
def pyEndsWith (s p : String) : Bool :=
  p.toList.reverse.isPrefixOf s.toList.reverse

/-- Python `s.lower()` (ASCII range, which is all the analyzer needs). -/
def pyToLower (s : String) : String :=
  String.mk (s.toList.map Char.toLower)

/-- The mandatory identity extraction at the top of `analyze_pr`:
`pr_data["base"]["repo"]["full_name"]`, `pr_data["number"]`,
`pr_data["title"]`, `pr_data["html_url"]`.  `none` models the `KeyError`
raised when any of these keys is absent. -/
def mandatory_fields (pr_data : PRData) : Option (String × Int × String × String) :=
  match pr_data.base with
  | none => none
  | some b =>
    match b.repo with
    | none => none
    | some r =>
      match r.full_name, pr_data.number, pr_data.title, pr_data.html_url with
      | some fn, some n, some t, some u => some (fn, n, t, u)
      | _, _, _, _ => none

/-- `pr_data.get("base", {}).get("repo", {}).get("private", False)`. -/
def priv_of (pr_data : PRData) : Bool :=
  match pr_data.base with
  | none => false
  | some b =>
    match b.repo with
    | none => false
    | some r => r.priv.getD false

/-- The constant `MERGE_CONFLICT` blocker. -/
def merge_conflict_blocker : MergeBlocker :=
  { type := "MERGE_CONFLICT"
    description := "PR has merge conflicts"
    details := some "Resolve conflicts with the base branch" }

/-- Conflict detection: blocker appended iff `mergeable is False` or
`mergeable_state == "dirty"`. -/
def conflict_blockers (mergeable : Option Bool) (mergeable_state : String) : List MergeBlocker :=
  if mergeable == some false || mergeable_state == "dirty" then [merge_conflict_blocker]
  else []

/-- `conflicts_status` from the same branch structure. -/
def conflicts_status_of (mergeable : Option Bool) (mergeable_state : String) : String :=
  if mergeable == some false || mergeable_state == "dirty" then "conflicts"
  else if mergeable == some true then "clean"
  else "unknown"

/-- `[check for check in check_runs if check.get("conclusion") == "failure"]`. -/
def failed_checks_of (check_runs : List CheckRunData) : List CheckRunData :=
  check_runs.filter (fun c => c.conclusion == some "failure")

/-- `check.get("output", {}).get("summary", "")`. -/
def summary_of (c : CheckRunData) : String :=
  (c.output.getD { summary := none }).summary.getD ""

/-- `summary.strip().split("\n")[-5:]` joined with `"\n    "`, or `None`
when the summary is empty. -/
def error_detail_of (summary : String) : Option String :=
  let error_lines := if summary == "" then [] else takeLast 5 (pySplitLines (pyStrip summary))
  if error_lines.isEmpty then none
  else some (String.intercalate "\n    " error_lines)

/-- The `FAILING_CHECK` blocker built for one failing check run. -/
def mk_failing_blocker (c : CheckRunData) : MergeBlocker :=
  { type := "FAILING_CHECK"
    description := "Check \x27" ++ c.name.getD "Unknown check" ++ "\x27 failed"
    details := error_detail_of (summary_of c) }

/-- One `FAILING_CHECK` blocker per failing check, in original list order. -/
def failing_blockers (check_runs : List CheckRunData) : List MergeBlocker :=
  (failed_checks_of check_runs).map mk_failing_blocker

/-- Pending checks: `status != "completed"` and `conclusion is None`. -/
def pending_checks_of (check_runs : List CheckRunData) : List CheckRunData :=
  check_runs.filter (fun c => !(c.status == some "completed") && c.conclusion.isNone)

/-- The truncated detail text of the `PENDING_CHECKS` blocker: first three
names, plus `" and N more"` when more than three are pending. -/
def pending_detail (check_runs : List CheckRunData) : String :=
  let pending_checks := pending_checks_of check_runs
  let check_names :=
    String.intercalate ", " ((pending_checks.take 3).map (fun c => c.name.getD "Unknown"))
  if pending_checks.length > 3 then
    check_names ++ " and " ++ toString (pending_checks.length - 3) ++ " more"
  else check_names

/-- At most one `PENDING_CHECKS` blocker, present iff some check is pending. -/
def pending_blockers (check_runs : List CheckRunData) : List MergeBlocker :=
  if (pending_checks_of check_runs).isEmpty then []
  else
    [{ type := "PENDING_CHECKS"
       description := toString (pending_checks_of check_runs).length ++ " check(s) still running"
       details := some (pending_detail check_runs) }]

/-- `ci_status`: failing, else pending, else passing when any check run
exists, else unknown. -/
def ci_status_of (check_runs : List CheckRunData) : String :=
  if !(failed_checks_of check_runs).isEmpty then "failing"
  else if !(pending_checks_of check_runs).isEmpty then "pending"
  else if !check_runs.isEmpty then "passing"
  else "unknown"

/-- Reviews with `state == "CHANGES_REQUESTED"`. -/
def changes_requested_of (reviews : List ReviewData) : List ReviewData :=
  reviews.filter (fun r => r.state == some "CHANGES_REQUESTED")

/-- Reviews with `state == "APPROVED"`. -/
def approvals_of (reviews : List ReviewData) : List ReviewData :=
  reviews.filter (fun r => r.state == some "APPROVED")

/-- `if user and user.get("login")`: a login is collected when the user
object is present and carries a non-empty login string. -/
def reviewer_logins_of (reviews : List ReviewData) : List String :=
  reviews.filterMap (fun r =>
    match r.user with
    | none => none
    | some u =>
      match u.login with
      | none => none
      | some l => if l == "" then none else some l)

/-- At most one `CHANGES_REQUESTED` blocker, listing the deduplicated
reviewer logins (or a fallback text when none resolve). -/
def changes_requested_blockers (reviews : List ReviewData) : List MergeBlocker :=
  if (changes_requested_of reviews).isEmpty then []
  else
    let reviewer_logins := reviewer_logins_of (changes_requested_of reviews)
    let reviewers :=
      if reviewer_logins.isEmpty then "Unknown reviewers"
      else String.intercalate ", " (pySet reviewer_logins)
    [{ type := "CHANGES_REQUESTED"
       description := "Changes requested by reviewer(s)"
       details := some ("Reviewers: " ++ reviewers) }]

/-- `MISSING_APPROVALS` blocker: private base repo, no approvals, and
`mergeable_state == "blocked"`. -/
def missing_approval_blockers (reviews : List ReviewData) (priv : Bool)
    (mergeable_state : String) : List MergeBlocker :=
  if priv && (approvals_of reviews).isEmpty && mergeable_state == "blocked" then
    [{ type := "MISSING_APPROVALS"
       description := "Required approvals missing"
       details := some "This PR may require approval from code owners" }]
  else []

/-- The sequential `review_status` assignments of `analyze_pr`: default
`unknown`; `changes_requested` when such reviews exist; overwritten to
`approved` whenever any approval exists; overwritten to `pending` by the
private-repo heuristic; fallback to `pending`/`none`. -/
def review_status_of (reviews : List ReviewData) (priv : Bool)
    (mergeable_state : String) : String :=
  let rs := if (changes_requested_of reviews).isEmpty then "unknown" else "changes_requested"
  let rs := if !(approvals_of reviews).isEmpty then "approved" else rs
  let rs :=
    if priv && (approvals_of reviews).isEmpty && mergeable_state == "blocked" then "pending"
    else rs
  if rs == "unknown" then (if reviews.isEmpty then "none" else "pending") else rs

/-- `[t for t in review_threads if not t.get("isResolved", False)]`. -/
def unresolved_threads_of (threads : List ThreadData) : List ThreadData :=
  threads.filter (fun t => !(t.isResolved.getD false))

/-- `comments_status`: `none` when no threads were supplied, `resolved`
when all are resolved, `unresolved` otherwise. -/
def comments_status_of (threads : List ThreadData) : String :=
  if threads.isEmpty then "none"
  else if (unresolved_threads_of threads).isEmpty then "resolved"
  else "unresolved"

/-- `unresolved_comment_count` (stays at its default 0 when no threads
were supplied). -/
def unresolved_count_of (threads : List ThreadData) : Nat :=
  if threads.isEmpty then 0 else (unresolved_threads_of threads).length

/-- The URL of a thread's first comment node, when it exists and is a
non-empty string (Python truthiness of `comments[0].get("url")`). -/
def first_comment_url (t : ThreadData) : Option String :=
  match (t.comments.getD { nodes := none }).nodes.getD [] with
  | [] => none
  | c :: _ =>
    match c.url with
    | none => none
    | some u => if u == "" then none else some u

/-- `unresolved_comment_urls`: first-comment URLs of unresolved threads. -/
def unresolved_urls_of (threads : List ThreadData) : List String :=
  if threads.isEmpty then []
  else (unresolved_threads_of threads).filterMap first_comment_url

/-- At most one `UNRESOLVED_COMMENTS` blocker, present iff some supplied
thread is unresolved. -/
def comment_blockers (threads : List ThreadData) : List MergeBlocker :=
  if threads.isEmpty then []
  else if (unresolved_threads_of threads).isEmpty then []
  else
    [{ type := "UNRESOLVED_COMMENTS"
       description := toString (unresolved_threads_of threads).length
         ++ " unresolved review comment(s)"
       details := some "Review and resolve all discussion threads" }]

/-- The constant `BRANCH_PROTECTION` blocker. -/
def branch_protection_blocker : MergeBlocker :=
  { type := "BRANCH_PROTECTION"
    description := "Blocked by branch protection rules"
    details := some "Check repository branch protection settings" }

/-- Every blocker appended before the branch-protection catch-all, in the
source's append order: conflict, failing checks, pending checks, changes
requested, missing approvals, unresolved comments. -/
def pre_protection_blockers (pr_data : PRData) (reviews : List ReviewData)
    (check_runs : List CheckRunData) (threads : List ThreadData) : List MergeBlocker :=
  conflict_blockers pr_data.mergeable (pr_data.mergeable_state.getD "unknown")
    ++ failing_blockers check_runs
    ++ pending_blockers check_runs
    ++ changes_requested_blockers reviews
    ++ missing_approval_blockers reviews (priv_of pr_data) (pr_data.mergeable_state.getD "unknown")
    ++ comment_blockers threads

/-- The final blocker list: the branch-protection catch-all is appended
only when `mergeable_state == "blocked"` and nothing was appended before. -/
def all_blockers (pr_data : PRData) (reviews : List ReviewData)
    (check_runs : List CheckRunData) (threads : List ThreadData) : List MergeBlocker :=
  if pr_data.mergeable_state.getD "unknown" == "blocked"
      && (pre_protection_blockers pr_data reviews check_runs threads).isEmpty then
    pre_protection_blockers pr_data reviews check_runs threads ++ [branch_protection_blocker]
  else pre_protection_blockers pr_data reviews check_runs threads

/-- Modelled from the spec: the bot heuristic applied to a username
extracted from a review label (implementation absent from the analyzer
source; referenced by the test suite).  Exact name `coderabbitai`, exact
name `openshift-virtualization-qe-bot`, or any name ending in `[bot]`. -/
def is_bot_user (user : String) : Bool :=
  user == "coderabbitai" || user == "openshift-virtualization-qe-bot"
    || pyEndsWith user "[bot]"

/-- Modelled from the spec: case-sensitive prefix parsing of one label
name into a `ReviewLabel` (implementation absent from the analyzer
source).  `lgtm-<user>`, `approved-<user>`, `changes-requested-<user>`,
`change-requested-<user>`; anything else is ignored. -/
def parse_review_label (name : String) : Option ReviewLabel :=
  if pyStartsWith name "lgtm-" then
    some { username := String.mk (name.toList.drop 5), status := "lgtm" }
  else if pyStartsWith name "approved-" then
    some { username := String.mk (name.toList.drop 9), status := "approved" }
  else if pyStartsWith name "changes-requested-" then
    some { username := String.mk (name.toList.drop 18), status := "changes-requested" }
  else if pyStartsWith name "change-requested-" then
    some { username := String.mk (name.toList.drop 17), status := "changes-requested" }
  else none

/-- Modelled from the spec: `review_labels` extraction (implementation
absent from the analyzer source).  Parse each label name, drop bot users,
keep everything else in order without deduplication. -/
def parse_review_labels (labels : List LabelData) : List ReviewLabel :=
  labels.filterMap (fun l =>
    match l.name with
    | none => none
    | some n =>
      match parse_review_label n with
      | none => none
      | some rl => if is_bot_user rl.username then none else some rl)

/-- Modelled from the spec: WIP-title detection (implementation absent
from the analyzer source).  Leading-whitespace-trimmed title begins,
case-insensitively, with `wip:`, `[wip]`, or `wip `. -/
def is_wip_title (title : String) : Bool :=
  let t := pyToLower (pyLStrip title)
  pyStartsWith t "wip:" || pyStartsWith t "[wip]" || pyStartsWith t "wip "

/-- Modelled from the spec: the derived lifecycle `state` (implementation
absent from the analyzer source).  Priority: merged, closed, draft, wip,
default open. -/
def derive_state (pr_data : PRData) : String :=
  if pr_data.merged.getD false then "merged"
  else if pr_data.state == some "closed" then "closed"
  else if pr_data.draft.getD false then "draft"
  else if is_wip_title (pr_data.title.getD "") then "wip"
  else "open"

/-- The `PRAnalysis` built by `analyze_pr` once the mandatory identity
fields have been extracted. -/
def build_analysis (repo_full_name : String) (pr_number : Int) (title url : String)
    (pr_data : PRData) (reviews : List ReviewData) (check_runs : List CheckRunData)
    (review_threads : Option (List ThreadData)) : PRAnalysis :=
  { repo := repo_full_name
    pr_number := pr_number
    title := title
    url := url
    blockers := all_blockers pr_data reviews check_runs (review_threads.getD [])
    ci_status := ci_status_of check_runs
    review_status :=
      review_status_of reviews (priv_of pr_data) (pr_data.mergeable_state.getD "unknown")
    comments_status := comments_status_of (review_threads.getD [])
    conflicts_status :=
      conflicts_status_of pr_data.mergeable (pr_data.mergeable_state.getD "unknown")
    unresolved_comment_count := unresolved_count_of (review_threads.getD [])
    failed_check_count := (failed_checks_of check_runs).length
    pending_check_count := (pending_checks_of check_runs).length
    failed_check_names := (failed_checks_of check_runs).map (fun c => c.name.getD "Unknown check")
    pending_check_names := (pending_checks_of check_runs).map (fun c => c.name.getD "Unknown")
    unresolved_comment_urls := unresolved_urls_of (review_threads.getD [])
    review_labels := parse_review_labels (pr_data.labels.getD [])
    state := derive_state pr_data }

/-- `analyze_pr`: `none` models the `KeyError` on a missing mandatory
identity field; otherwise the complete analysis is returned. -/
def analyze_pr (pr_data : PRData) (reviews : List ReviewData)
    (check_runs : List CheckRunData) (review_threads : Option (List ThreadData)) :
    Option PRAnalysis :=
  match mandatory_fields pr_data with
  | none => none
  | some (repo_full_name, pr_number, title, url) =>
    some (build_analysis repo_full_name pr_number title url pr_data reviews check_runs
      review_threads)

/-! ## General helper lemmas -/

lemma analyze_pr_eq_some_iff (pd : PRData) (rv : List ReviewData)
    (cr : List CheckRunData) (th : Option (List ThreadData)) (a : PRAnalysis) :
    analyze_pr pd rv cr th = some a ↔
      ∃ fn n t u, mandatory_fields pd = some (fn, n, t, u) ∧
        a = build_analysis fn n t u pd rv cr th := by
  unfold analyze_pr
  cases hm : mandatory_fields pd with
  | none => simp
  | some v =>
    obtain ⟨fn, n, t, u⟩ := v
    simp only [Option.some.injEq, Prod.mk.injEq]
    constructor
    · intro h
      exact ⟨fn, n, t, u, ⟨rfl, rfl, rfl, rfl⟩, h.symm⟩
    · rintro ⟨fn2, n2, t2, u2, ⟨h1, h2, h3, h4⟩, ha⟩
      subst h1; subst h2; subst h3; subst h4
      exact ha.symm

lemma filter_eq_nil_of {α : Type} (p : α → Bool) (l : List α)
    (h : ∀ b ∈ l, p b = false) : l.filter p = [] := by
  rw [List.filter_eq_nil_iff]
  intro b hb
  simp [h b hb]

lemma filter_eq_self_of {α : Type} (p : α → Bool) (l : List α)
    (h : ∀ b ∈ l, p b = true) : l.filter p = l := by
  induction l with
  | nil => rfl
  | cons x xs ih =>
    rw [List.filter_cons, if_pos (h x (List.mem_cons_self x xs))]
    rw [ih (fun b hb => h b (List.mem_cons_of_mem x hb))]

lemma type_of_mem_conflict {b : MergeBlocker} {m : Option Bool} {ms : String}
    (h : b ∈ conflict_blockers m ms) : b.type = "MERGE_CONFLICT" := by
  unfold conflict_blockers at h
  split at h <;> simp_all
  subst h; rfl

lemma type_of_mem_failing {b : MergeBlocker} {cr : List CheckRunData}
    (h : b ∈ failing_blockers cr) : b.type = "FAILING_CHECK" := by
  unfold failing_blockers at h
  obtain ⟨c, _, hc⟩ := List.mem_map.mp h
  subst hc; rfl

lemma type_of_mem_pending {b : MergeBlocker} {cr : List CheckRunData}
    (h : b ∈ pending_blockers cr) : b.type = "PENDING_CHECKS" := by
  unfold pending_blockers at h
  split at h <;> simp_all

lemma type_of_mem_changes {b : MergeBlocker} {rv : List ReviewData}
    (h : b ∈ changes_requested_blockers rv) : b.type = "CHANGES_REQUESTED" := by
  unfold changes_requested_blockers at h
  split at h <;> simp_all

lemma type_of_mem_missing {b : MergeBlocker} {rv : List ReviewData} {p : Bool} {ms : String}
    (h : b ∈ missing_approval_blockers rv p ms) : b.type = "MISSING_APPROVALS" := by
  unfold missing_approval_blockers at h
  split at h <;> simp_all

lemma type_of_mem_comment {b : MergeBlocker} {ths : List ThreadData}
    (h : b ∈ comment_blockers ths) : b.type = "UNRESOLVED_COMMENTS" := by
  unfold comment_blockers at h
  split at h
  · simp_all
  · split at h <;> simp_all

/-- in `pre_protection_blockers`, every blocker has one of the six
pre-catch-all types; in particular none is a `BRANCH_PROTECTION`. -/
lemma type_of_mem_pre {b : MergeBlocker} {pd : PRData} {rv : List ReviewData}
    {cr : List CheckRunData} {ths : List ThreadData}
    (h : b ∈ pre_protection_blockers pd rv cr ths) :
    b.type = "MERGE_CONFLICT" ∨ b.type = "FAILING_CHECK" ∨ b.type = "PENDING_CHECKS"
      ∨ b.type = "CHANGES_REQUESTED" ∨ b.type = "MISSING_APPROVALS"
      ∨ b.type = "UNRESOLVED_COMMENTS" := by
  unfold pre_protection_blockers at h
  simp only [List.mem_append] at h
  rcases h with ((((h | h) | h) | h) | h) | h
  · exact Or.inl (type_of_mem_conflict h)
  · exact Or.inr (Or.inl (type_of_mem_failing h))
  · exact Or.inr (Or.inr (Or.inl (type_of_mem_pending h)))
  · exact Or.inr (Or.inr (Or.inr (Or.inl (type_of_mem_changes h))))
  · exact Or.inr (Or.inr (Or.inr (Or.inr (Or.inl (type_of_mem_missing h)))))
  · exact Or.inr (Or.inr (Or.inr (Or.inr (Or.inr (type_of_mem_comment h)))))

/-! ## Shared concrete inputs -/

/-- A well-formed clean PR snapshot (the fixture shape of the test suite). -/
def samplePR : PRData :=
  { base := some { repo := some { full_name := some "owner/repo", priv := some false } }
    number := some 123
    title := some "Test PR"
    html_url := some "https://github.com/owner/repo/pull/123"
    mergeable := some true
    mergeable_state := some "clean" }

/-- The analysis of `samplePR` with no reviews, checks or threads. -/
def sampleAnalysis : PRAnalysis :=
  build_analysis "owner/repo" 123 "Test PR" "https://github.com/owner/repo/pull/123"
    samplePR [] [] none

/-! ## C1 -/

/-- C1: for every input to `analyze_pr`, the returned analysis satisfies
`is_mergeable = true` exactly when `blockers` is empty; `is_mergeable` is a
computed property of the blocker list, never stored independently. -/
theorem c1_is_mergeable_iff_no_blockers (pd : PRData) (rv : List ReviewData)
    (cr : List CheckRunData) (th : Option (List ThreadData)) (a : PRAnalysis)
    (h : analyze_pr pd rv cr th = some a) :
    a.is_mergeable = true ↔ a.blockers = [] := by
  unfold PRAnalysis.is_mergeable
  simp [List.length_eq_zero]

/-- Witness for C1 at a concrete input. -/
theorem c1_is_mergeable_iff_no_blockers_witness :
    sampleAnalysis.is_mergeable = true ↔ sampleAnalysis.blockers = [] :=
  c1_is_mergeable_iff_no_blockers samplePR [] [] none sampleAnalysis rfl

/-! ## C8 -/

/-- C8: `analyze_pr` produces a complete analysis exactly when the four
mandatory identity fields (`base.repo.full_name`, `number`, `title`,
`html_url`) are present, regardless of every optional field; it fails
(models the `KeyError`) only when one of them is missing, and then no
partial analysis is returned. -/
theorem c8_total_on_optional_fields (pd : PRData) (rv : List ReviewData)
    (cr : List CheckRunData) (th : Option (List ThreadData)) :
    (analyze_pr pd rv cr th).isSome =
      (((pd.base.bind BaseData.repo).bind RepoData.full_name).isSome
        && pd.number.isSome && pd.title.isSome && pd.html_url.isSome) := by
  cases hb : pd.base with
  | none => simp [analyze_pr, mandatory_fields, hb]
  | some b =>
    cases hr : b.repo with
    | none => simp [analyze_pr, mandatory_fields, hb, hr]
    | some r =>
      cases hf : r.full_name <;> cases hn : pd.number <;> cases ht : pd.title <;>
        cases hu : pd.html_url <;>
        simp [analyze_pr, mandatory_fields, hb, hr, hf, hn, ht, hu]

/-! ## C9 -/

/-- C9: `analyze_pr` is deterministic: two invocations on identical inputs
yield identical outputs, including identical blocker order and identical
blocker description and details strings (the analyzer is embedded as a
pure function with no side effects). -/
theorem c9_deterministic (pd1 pd2 : PRData) (rv1 rv2 : List ReviewData)
    (cr1 cr2 : List CheckRunData) (th1 th2 : Option (List ThreadData))
    (hpd : pd1 = pd2) (hrv : rv1 = rv2) (hcr : cr1 = cr2) (hth : th1 = th2) :
    analyze_pr pd1 rv1 cr1 th1 = analyze_pr pd2 rv2 cr2 th2 := by
  subst hpd; subst hrv; subst hcr; subst hth; rfl

/-- Witness for C9 at a concrete input. -/
theorem c9_deterministic_witness :
    analyze_pr samplePR [] [] none = analyze_pr samplePR [] [] none :=
  c9_deterministic samplePR samplePR [] [] [] [] none none rfl rfl rfl rfl

/-! ## Projection lemmas for `build_analysis` -/

lemma build_blockers (fn : String) (n : Int) (t u : String) (pd : PRData)
    (rv : List ReviewData) (cr : List CheckRunData) (th : Option (List ThreadData)) :
    (build_analysis fn n t u pd rv cr th).blockers = all_blockers pd rv cr (th.getD []) := rfl

lemma build_review_status (fn : String) (n : Int) (t u : String) (pd : PRData)
    (rv : List ReviewData) (cr : List CheckRunData) (th : Option (List ThreadData)) :
    (build_analysis fn n t u pd rv cr th).review_status =
      review_status_of rv (priv_of pd) (pd.mergeable_state.getD "unknown") := rfl

lemma build_state (fn : String) (n : Int) (t u : String) (pd : PRData)
    (rv : List ReviewData) (cr : List CheckRunData) (th : Option (List ThreadData)) :
    (build_analysis fn n t u pd rv cr th).state = derive_state pd := rfl

lemma build_review_labels (fn : String) (n : Int) (t u : String) (pd : PRData)
    (rv : List ReviewData) (cr : List CheckRunData) (th : Option (List ThreadData)) :
    (build_analysis fn n t u pd rv cr th).review_labels =
      parse_review_labels (pd.labels.getD []) := rfl

lemma mem_pre_of_mem_changes {b : MergeBlocker} {pd : PRData} {rv : List ReviewData}
    {cr : List CheckRunData} {ths : List ThreadData}
    (hb : b ∈ changes_requested_blockers rv) :
    b ∈ pre_protection_blockers pd rv cr ths := by
  unfold pre_protection_blockers
  simp only [List.mem_append]
  tauto

lemma mem_all_of_mem_pre {b : MergeBlocker} {pd : PRData} {rv : List ReviewData}
    {cr : List CheckRunData} {ths : List ThreadData}
    (hb : b ∈ pre_protection_blockers pd rv cr ths) :
    b ∈ all_blockers pd rv cr ths := by
  unfold all_blockers
  split
  · exact List.mem_append_left _ hb
  · exact hb

lemma approvals_ne_nil {rv : List ReviewData}
    (h : ∃ r ∈ rv, r.state = some "APPROVED") : approvals_of rv ≠ [] := by
  obtain ⟨r, hr, hs⟩ := h
  exact List.ne_nil_of_mem (List.mem_filter.mpr ⟨hr, by simp [hs]⟩)

lemma changes_requested_ne_nil {rv : List ReviewData}
    (h : ∃ r ∈ rv, r.state = some "CHANGES_REQUESTED") : changes_requested_of rv ≠ [] := by
  obtain ⟨r, hr, hs⟩ := h
  exact List.ne_nil_of_mem (List.mem_filter.mpr ⟨hr, by simp [hs]⟩)

/-- whenever any approval exists, the final `review_status` is `approved`:
the later private-repo overwrite requires no approvals, and the fallback
requires the status to still be `unknown`. -/
lemma review_status_of_approved (rv : List ReviewData) (priv : Bool) (ms : String)
    (h : approvals_of rv ≠ []) : review_status_of rv priv ms = "approved" := by
  have h1 : (approvals_of rv).isEmpty = false := List.isEmpty_eq_false.mpr h
  simp [review_status_of, h1]

/-! ## C2 -/

/-- A review list containing both a changes-requested and an approved
review. -/
def mixedReviews : List ReviewData :=
  [{ state := some "CHANGES_REQUESTED", user := some { login := some "reviewer1" } },
   { state := some "APPROVED", user := some { login := some "reviewer2" } }]

/-- The analysis of `samplePR` under `mixedReviews`. -/
def mixedAnalysis : PRAnalysis :=
  build_analysis "owner/repo" 123 "Test PR" "https://github.com/owner/repo/pull/123"
    samplePR mixedReviews [] none

/-- C2 counterexample: on a review list with both a CHANGES_REQUESTED and
an APPROVED review, the analyzer returns `review_status = "approved"`,
not `"changes_requested"` as the claim states: the approval step
unconditionally overwrites the status set by the changes-requested step. -/
theorem c2_counterexample_approved_overwrites :
    (analyze_pr samplePR mixedReviews [] none).map PRAnalysis.review_status
        = some "approved" ∧
      some "approved" ≠ some "changes_requested" := by
  constructor
  · rfl
  · decide

/-- C2 amended: for every review list containing both a CHANGES_REQUESTED
and an APPROVED review, the resulting `review_status` is `approved`:
changes-requested is evaluated first and appends the CHANGES_REQUESTED
blocker, but the approval step is evaluated next and sets `review_status`
to `approved` whenever any approval exists, overwriting the
`changes_requested` value. -/
theorem c2_amended_approved_wins (pd : PRData) (rv : List ReviewData)
    (cr : List CheckRunData) (th : Option (List ThreadData)) (a : PRAnalysis)
    (hc : ∃ r ∈ rv, r.state = some "CHANGES_REQUESTED")
    (hap : ∃ r ∈ rv, r.state = some "APPROVED")
    (h : analyze_pr pd rv cr th = some a) :
    a.review_status = "approved" ∧ ∃ b ∈ a.blockers, b.type = "CHANGES_REQUESTED" := by
  obtain ⟨fn, n, t, u, hm, ha⟩ := (analyze_pr_eq_some_iff pd rv cr th a).mp h
  subst ha
  constructor
  · rw [build_review_status]
    exact review_status_of_approved rv (priv_of pd) (pd.mergeable_state.getD "unknown")
      (approvals_ne_nil hap)
  · have hcr : (changes_requested_of rv).isEmpty = false :=
      List.isEmpty_eq_false.mpr (changes_requested_ne_nil hc)
    have hb : ∃ b ∈ changes_requested_blockers rv, b.type = "CHANGES_REQUESTED" := by
      unfold changes_requested_blockers
      rw [if_neg (by simp [hcr])]
      refine ⟨_, List.mem_singleton.mpr rfl, ?_⟩
      rfl
    obtain ⟨b, hbm, hbt⟩ := hb
    exact ⟨b, by rw [build_blockers]; exact mem_all_of_mem_pre (mem_pre_of_mem_changes hbm), hbt⟩

/-- Witness for the amended C2 at a concrete input. -/
theorem c2_amended_approved_wins_witness :
    mixedAnalysis.review_status = "approved" ∧
      ∃ b ∈ mixedAnalysis.blockers, b.type = "CHANGES_REQUESTED" :=
  c2_amended_approved_wins samplePR mixedReviews [] none mixedAnalysis
    (by decide) (by decide) rfl

/-! ## C3 -/

/-- no `ReviewLabel` produced by `parse_review_labels` carries a bot
username: the bot filter discards such labels before construction. -/
lemma no_bots_in_parse {rl : ReviewLabel} {labels : List LabelData}
    (h : rl ∈ parse_review_labels labels) : is_bot_user rl.username = false := by
  unfold parse_review_labels at h
  obtain ⟨l, _, hf⟩ := List.mem_filterMap.mp h
  cases hn : l.name with
  | none => rw [hn] at hf; simp at hf
  | some nm =>
    rw [hn] at hf
    simp only at hf
    cases hp : parse_review_label nm with
    | none => rw [hp] at hf; simp at hf
    | some rl2 =>
      rw [hp] at hf
      simp only at hf
      cases hb : is_bot_user rl2.username with
      | true => simp [hb] at hf
      | false =>
        simp [hb] at hf
        rw [← hf]
        exact hb

/-- A PR snapshot carrying review labels, one of them a bot label. -/
def labeledPR : PRData :=
  { samplePR with
    labels := some [{ name := some "lgtm-alice" }, { name := some "approved-alice" },
      { name := some "approved-somebot[bot]" }, { name := some "size/XS" }] }

/-- The analysis of `labeledPR`. -/
def labeledAnalysis : PRAnalysis :=
  build_analysis "owner/repo" 123 "Test PR" "https://github.com/owner/repo/pull/123"
    labeledPR [] [] none

/-- C3: the analysis carries `review_labels` extracted from the PR label
names by case-sensitive prefix matching (`lgtm-`, `approved-`,
`changes-requested-`, `change-requested-`); labels whose user is exactly
`coderabbitai`, exactly `openshift-virtualization-qe-bot`, or ends in
`[bot]` are discarded; all other matching labels become entries and
duplicates for one user across statuses are preserved. -/
theorem c3_review_labels (pd : PRData) (rv : List ReviewData)
    (cr : List CheckRunData) (th : Option (List ThreadData)) (a : PRAnalysis)
    (h : analyze_pr pd rv cr th = some a) :
    a.review_labels = parse_review_labels (pd.labels.getD []) ∧
    (∀ rl ∈ a.review_labels, is_bot_user rl.username = false) ∧
    parse_review_labels [{ name := some "lgtm-alice" }]
        = [{ username := "alice", status := "lgtm" }] ∧
    parse_review_labels [{ name := some "approved-bob" }]
        = [{ username := "bob", status := "approved" }] ∧
    parse_review_labels [{ name := some "changes-requested-carol" }]
        = [{ username := "carol", status := "changes-requested" }] ∧
    parse_review_labels [{ name := some "change-requested-dave" }]
        = [{ username := "dave", status := "changes-requested" }] ∧
    parse_review_labels [{ name := some "approved-somebot[bot]" }] = [] ∧
    parse_review_labels [{ name := some "lgtm-coderabbitai" }] = [] ∧
    parse_review_labels [{ name := some "lgtm-openshift-virtualization-qe-bot" }] = [] ∧
    parse_review_labels [{ name := some "approved-alice" }, { name := some "lgtm-alice" }]
        = [{ username := "alice", status := "approved" },
           { username := "alice", status := "lgtm" }] ∧
    parse_review_labels [{ name := some "commented-eve" }] = [] := by
  obtain ⟨fn, n, t, u, hm, ha⟩ := (analyze_pr_eq_some_iff pd rv cr th a).mp h
  subst ha
  refine ⟨build_review_labels fn n t u pd rv cr th, ?_, rfl, rfl, rfl, rfl, rfl, rfl, rfl,
    rfl, rfl⟩
  rw [build_review_labels]
  intro rl hrl
  exact no_bots_in_parse hrl

/-- Witness for C3 at a concrete input. -/
theorem c3_review_labels_witness :
    labeledAnalysis.review_labels = parse_review_labels (labeledPR.labels.getD []) ∧
    (∀ rl ∈ labeledAnalysis.review_labels, is_bot_user rl.username = false) ∧
    parse_review_labels [{ name := some "lgtm-alice" }]
        = [{ username := "alice", status := "lgtm" }] ∧
    parse_review_labels [{ name := some "approved-bob" }]
        = [{ username := "bob", status := "approved" }] ∧
    parse_review_labels [{ name := some "changes-requested-carol" }]
        = [{ username := "carol", status := "changes-requested" }] ∧
    parse_review_labels [{ name := some "change-requested-dave" }]
        = [{ username := "dave", status := "changes-requested" }] ∧
    parse_review_labels [{ name := some "approved-somebot[bot]" }] = [] ∧
    parse_review_labels [{ name := some "lgtm-coderabbitai" }] = [] ∧
    parse_review_labels [{ name := some "lgtm-openshift-virtualization-qe-bot" }] = [] ∧
    parse_review_labels [{ name := some "approved-alice" }, { name := some "lgtm-alice" }]
        = [{ username := "alice", status := "approved" },
           { username := "alice", status := "lgtm" }] ∧
    parse_review_labels [{ name := some "commented-eve" }] = [] :=
  c3_review_labels labeledPR [] [] none labeledAnalysis rfl

/-! ## C4 -/

/-- C4: the analysis carries the derived lifecycle `state`: default
`open`, overridden with priority merged > closed > draft > wip; in
particular `merged` together with `draft` yields `merged`, and the wip
test is a case-insensitive, leading-whitespace-trimmed prefix check for
`wip:`, `[wip]` or `wip `. -/
theorem c4_lifecycle_state (pd : PRData) (rv : List ReviewData)
    (cr : List CheckRunData) (th : Option (List ThreadData)) (a : PRAnalysis)
    (h : analyze_pr pd rv cr th = some a) :
    a.state = derive_state pd ∧
    (pd.merged.getD false = true → derive_state pd = "merged") ∧
    (pd.merged.getD false = false → pd.state = some "closed" →
      derive_state pd = "closed") ∧
    (pd.merged.getD false = false → pd.state ≠ some "closed" →
      pd.draft.getD false = true → derive_state pd = "draft") ∧
    (pd.merged.getD false = false → pd.state ≠ some "closed" →
      pd.draft.getD false = false → is_wip_title (pd.title.getD "") = true →
      derive_state pd = "wip") ∧
    (pd.merged.getD false = false → pd.state ≠ some "closed" →
      pd.draft.getD false = false → is_wip_title (pd.title.getD "") = false →
      derive_state pd = "open") ∧
    is_wip_title "  [WIP] add feature" = true ∧
    derive_state { merged := some true, draft := some true, title := some "t" }
      = "merged" := by
  obtain ⟨fn, n, t, u, hm, ha⟩ := (analyze_pr_eq_some_iff pd rv cr th a).mp h
  subst ha
  refine ⟨build_state fn n t u pd rv cr th, ?_, ?_, ?_, ?_, ?_, by decide, by decide⟩
  · intro hmg
    simp [derive_state, hmg]
  · intro hmg hcl
    simp [derive_state, hmg, hcl]
  · intro hmg hcl hd
    simp [derive_state, hmg, hd, show (pd.state == some "closed") = false from
      beq_eq_false_iff_ne.mpr hcl]
  · intro hmg hcl hd hw
    simp [derive_state, hmg, hd, hw, show (pd.state == some "closed") = false from
      beq_eq_false_iff_ne.mpr hcl]
  · intro hmg hcl hd hw
    simp [derive_state, hmg, hd, hw, show (pd.state == some "closed") = false from
      beq_eq_false_iff_ne.mpr hcl]

/-- Witness for C4 at a concrete input. -/
theorem c4_lifecycle_state_witness :
    sampleAnalysis.state = derive_state samplePR ∧
    (samplePR.merged.getD false = true → derive_state samplePR = "merged") ∧
    (samplePR.merged.getD false = false → samplePR.state = some "closed" →
      derive_state samplePR = "closed") ∧
    (samplePR.merged.getD false = false → samplePR.state ≠ some "closed" →
      samplePR.draft.getD false = true → derive_state samplePR = "draft") ∧
    (samplePR.merged.getD false = false → samplePR.state ≠ some "closed" →
      samplePR.draft.getD false = false → is_wip_title (samplePR.title.getD "") = true →
      derive_state samplePR = "wip") ∧
    (samplePR.merged.getD false = false → samplePR.state ≠ some "closed" →
      samplePR.draft.getD false = false → is_wip_title (samplePR.title.getD "") = false →
      derive_state samplePR = "open") ∧
    is_wip_title "  [WIP] add feature" = true ∧
    derive_state { merged := some true, draft := some true, title := some "t" }
      = "merged" :=
  c4_lifecycle_state samplePR [] [] none sampleAnalysis rfl

/-! ## C10 -/

/-- a thread that counts as unresolved splits the unresolved filter. -/
lemma unresolved_split (pre post : List ThreadData) (t : ThreadData)
    (ht : t.isResolved.getD false = false) :
    unresolved_threads_of (pre ++ t :: post)
      = unresolved_threads_of pre ++ t :: unresolved_threads_of post := by
  unfold unresolved_threads_of
  rw [List.filter_append, List.filter_cons]
  simp [ht]

lemma comments_status_unresolved (pre post : List ThreadData) (t : ThreadData)
    (ht : t.isResolved.getD false = false) :
    comments_status_of (pre ++ t :: post) = "unresolved" := by
  have h1 : (pre ++ t :: post).isEmpty = false := by
    simp [List.isEmpty_eq_false]
  have h2 : (unresolved_threads_of pre ++ t :: unresolved_threads_of post).isEmpty = false := by
    simp [List.isEmpty_eq_false]
  simp [comments_status_of, unresolved_split pre post t ht, h1, h2]

lemma unresolved_count_split (pre post : List ThreadData) (t : ThreadData)
    (ht : t.isResolved.getD false = false) :
    unresolved_count_of (pre ++ t :: post)
      = (unresolved_threads_of pre).length + ((unresolved_threads_of post).length + 1) := by
  have h1 : (pre ++ t :: post).isEmpty = false := by
    simp [List.isEmpty_eq_false]
  simp [unresolved_count_of, unresolved_split pre post t ht, h1]

lemma unresolved_urls_split (pre post : List ThreadData) (t : ThreadData)
    (ht : t.isResolved.getD false = false) :
    unresolved_urls_of (pre ++ t :: post)
      = (unresolved_threads_of pre).filterMap first_comment_url
        ++ ((first_comment_url t).toList
          ++ (unresolved_threads_of post).filterMap first_comment_url) := by
  have h1 : (pre ++ t :: post).isEmpty = false := by
    simp [List.isEmpty_eq_false]
  simp only [unresolved_urls_of, h1, Bool.false_eq_true, if_false,
    unresolved_split pre post t ht, List.filterMap_append, List.filterMap_cons]
  cases hf : first_comment_url t <;> simp [hf]

lemma comment_blockers_split (pre post : List ThreadData) (t : ThreadData)
    (ht : t.isResolved.getD false = false) :
    comment_blockers (pre ++ t :: post)
      = [{ type := "UNRESOLVED_COMMENTS"
           description :=
             toString ((unresolved_threads_of pre).length
               + ((unresolved_threads_of post).length + 1))
               ++ " unresolved review comment(s)"
           details := some "Review and resolve all discussion threads" }] := by
  have h1 : (pre ++ t :: post).isEmpty = false := by
    simp [List.isEmpty_eq_false]
  have h2 : (unresolved_threads_of pre ++ t :: unresolved_threads_of post).isEmpty = false := by
    simp [List.isEmpty_eq_false]
  simp only [comment_blockers, unresolved_split pre post t ht, h1, h2,
    Bool.false_eq_true, if_false]
  have h3 : (unresolved_threads_of pre ++ t :: unresolved_threads_of post).length
      = (unresolved_threads_of pre).length + ((unresolved_threads_of post).length + 1) := by
    simp [List.length_append]
  rw [h3]

/-- `build_analysis` only consumes the supplied thread list through the
four comment functions. -/
lemma build_analysis_threads_congr (fn : String) (n : Int) (t u : String)
    (pd : PRData) (rv : List ReviewData) (cr : List CheckRunData)
    (l1 l2 : List ThreadData)
    (h1 : comments_status_of l1 = comments_status_of l2)
    (h2 : unresolved_count_of l1 = unresolved_count_of l2)
    (h3 : unresolved_urls_of l1 = unresolved_urls_of l2)
    (h4 : comment_blockers l1 = comment_blockers l2) :
    build_analysis fn n t u pd rv cr (some l1) = build_analysis fn n t u pd rv cr (some l2) := by
  simp only [build_analysis, all_blockers, pre_protection_blockers, Option.getD_some]
  rw [h1, h2, h3, h4]

lemma mem_pre_of_mem_comment {b : MergeBlocker} {pd : PRData} {rv : List ReviewData}
    {cr : List CheckRunData} {ths : List ThreadData}
    (hb : b ∈ comment_blockers ths) :
    b ∈ pre_protection_blockers pd rv cr ths := by
  unfold pre_protection_blockers
  simp only [List.mem_append]
  tauto

/-- C10: a review thread whose `isResolved` field is absent is treated
exactly like `isResolved = false`: replacing one for the other anywhere in
the thread list leaves the whole analysis unchanged, and when such a
thread is the only one supplied it is counted in
`unresolved_comment_count`, contributes its first comment URL when one is
present, triggers the `UNRESOLVED_COMMENTS` blocker and sets
`comments_status = "unresolved"`. -/
theorem c10_missing_isResolved_is_false (pd : PRData) (rv : List ReviewData)
    (cr : List CheckRunData) (pre post : List ThreadData) (cm : Option CommentsData)
    (a : PRAnalysis) :
    analyze_pr pd rv cr (some (pre ++ { isResolved := none, comments := cm } :: post))
        = analyze_pr pd rv cr
            (some (pre ++ { isResolved := some false, comments := cm } :: post)) ∧
    (analyze_pr pd rv cr (some [{ isResolved := none, comments := cm }]) = some a →
      a.unresolved_comment_count = 1 ∧
      a.comments_status = "unresolved" ∧
      (∃ b ∈ a.blockers, b.type = "UNRESOLVED_COMMENTS") ∧
      a.unresolved_comment_urls
        = (first_comment_url { isResolved := none, comments := cm }).toList) := by
  constructor
  · unfold analyze_pr
    cases hm : mandatory_fields pd with
    | none => rfl
    | some v =>
      obtain ⟨fn, n, t, u⟩ := v
      have e1 := comments_status_unresolved pre post
        { isResolved := none, comments := cm } rfl
      have e2 := comments_status_unresolved pre post
        { isResolved := some false, comments := cm } rfl
      have c1 := unresolved_count_split pre post
        { isResolved := none, comments := cm } rfl
      have c2 := unresolved_count_split pre post
        { isResolved := some false, comments := cm } rfl
      have u1 := unresolved_urls_split pre post
        { isResolved := none, comments := cm } rfl
      have u2 := unresolved_urls_split pre post
        { isResolved := some false, comments := cm } rfl
      have b1 := comment_blockers_split pre post
        { isResolved := none, comments := cm } rfl
      have b2 := comment_blockers_split pre post
        { isResolved := some false, comments := cm } rfl
      exact congrArg some (build_analysis_threads_congr fn n t u pd rv cr _ _
        (e1.trans e2.symm) (c1.trans c2.symm) (u1.trans u2.symm) (b1.trans b2.symm))
  · intro h
    obtain ⟨fn, n, t, u, hm, ha⟩ :=
      (analyze_pr_eq_some_iff pd rv cr
        (some [{ isResolved := none, comments := cm }]) a).mp h
    subst ha
    have hsplit := unresolved_split [] [] { isResolved := none, comments := cm } rfl
    refine ⟨?_, ?_, ?_, ?_⟩
    · show unresolved_count_of ((some [({ isResolved := none, comments := cm } : ThreadData)]).getD []) = 1
      rw [Option.getD_some]
      have := unresolved_count_split [] [] { isResolved := none, comments := cm } rfl
      simpa [unresolved_threads_of] using this
    · show comments_status_of ((some [({ isResolved := none, comments := cm } : ThreadData)]).getD []) = "unresolved"
      rw [Option.getD_some]
      exact comments_status_unresolved [] [] { isResolved := none, comments := cm } rfl
    · have hb := comment_blockers_split [] [] { isResolved := none, comments := cm } rfl
      simp only [List.nil_append] at hb
      have hex : ∃ b ∈ comment_blockers [({ isResolved := none, comments := cm } : ThreadData)],
          b.type = "UNRESOLVED_COMMENTS" := by
        rw [hb]
        refine ⟨_, List.mem_singleton.mpr rfl, ?_⟩
        rfl
      obtain ⟨b, hbm, hbt⟩ := hex
      rw [build_blockers, Option.getD_some]
      exact ⟨b, mem_all_of_mem_pre (mem_pre_of_mem_comment hbm), hbt⟩
    · show unresolved_urls_of ((some [({ isResolved := none, comments := cm } : ThreadData)]).getD [])
          = (first_comment_url { isResolved := none, comments := cm }).toList
      rw [Option.getD_some]
      have := unresolved_urls_split [] [] { isResolved := none, comments := cm } rfl
      simpa [unresolved_threads_of] using this

/-- A review thread with absent `isResolved` and one comment URL. -/
def sampleThreadNone : ThreadData :=
  { isResolved := none, comments := some { nodes := some [{ url := some "u1" }] } }

/-- The same thread with `isResolved` explicitly `false`. -/
def sampleThreadFalse : ThreadData :=
  { isResolved := some false, comments := some { nodes := some [{ url := some "u1" }] } }

/-- The analysis of `samplePR` with the single thread `sampleThreadNone`. -/
def threadAnalysis : PRAnalysis :=
  build_analysis "owner/repo" 123 "Test PR" "https://github.com/owner/repo/pull/123"
    samplePR [] [] (some [sampleThreadNone])

/-- Witness for C10 at a concrete input. -/
theorem c10_missing_isResolved_is_false_witness :
    analyze_pr samplePR [] [] (some [sampleThreadNone])
        = analyze_pr samplePR [] [] (some [sampleThreadFalse]) ∧
    (threadAnalysis.unresolved_comment_count = 1 ∧
      threadAnalysis.comments_status = "unresolved" ∧
      (∃ b ∈ threadAnalysis.blockers, b.type = "UNRESOLVED_COMMENTS") ∧
      threadAnalysis.unresolved_comment_urls
        = (first_comment_url sampleThreadNone).toList) :=
  ⟨(c10_missing_isResolved_is_false samplePR [] [] [] []
      (some { nodes := some [{ url := some "u1" }] }) threadAnalysis).1,
   (c10_missing_isResolved_is_false samplePR [] [] [] []
      (some { nodes := some [{ url := some "u1" }] }) threadAnalysis).2 rfl⟩

/-! ## Filter helpers shared by the blocker-list claims -/

lemma filter_type_eq_nil {l : List MergeBlocker} {C T : String}
    (hC : ∀ b ∈ l, b.type = C) (hne : C ≠ T) :
    l.filter (fun b => b.type == T) = [] :=
  filter_eq_nil_of _ _ (fun b hb => beq_eq_false_iff_ne.mpr (by rw [hC b hb]; exact hne))

lemma filter_type_eq_self {l : List MergeBlocker} {T : String}
    (hT : ∀ b ∈ l, b.type = T) :
    l.filter (fun b => b.type == T) = l :=
  filter_eq_self_of _ _ (fun b hb => by simp [hT b hb])

lemma pre_eq_nil_parts {pd : PRData} {rv : List ReviewData} {cr : List CheckRunData}
    {ths : List ThreadData} (h : pre_protection_blockers pd rv cr ths = []) :
    failing_blockers cr = [] ∧ pending_blockers cr = [] ∧
      changes_requested_blockers rv = [] := by
  unfold pre_protection_blockers at h
  simp only [List.append_eq_nil] at h
  tauto

/-! ## C6 -/

lemma pending_blockers_eq (cr : List CheckRunData) (hp : pending_checks_of cr ≠ []) :
    pending_blockers cr
      = [{ type := "PENDING_CHECKS"
           description := toString (pending_checks_of cr).length ++ " check(s) still running"
           details := some (pending_detail cr) }] := by
  have h1 : (pending_checks_of cr).isEmpty = false := List.isEmpty_eq_false.mpr hp
  simp [pending_blockers, h1]

/-- Five pending check runs named Check0..Check4. -/
def fivePendingChecks : List CheckRunData :=
  [{ name := some "Check0", status := some "queued" },
   { name := some "Check1", status := some "queued" },
   { name := some "Check2", status := some "queued" },
   { name := some "Check3", status := some "queued" },
   { name := some "Check4", status := some "queued" }]

/-- The analysis of `samplePR` with `fivePendingChecks`. -/
def pendingAnalysis : PRAnalysis :=
  build_analysis "owner/repo" 123 "Test PR" "https://github.com/owner/repo/pull/123"
    samplePR [] fivePendingChecks none

/-- C6: when at least one check is pending, exactly one `PENDING_CHECKS`
blocker appears; its description is `"<N> check(s) still running"` and its
details hold the first three pending names with `" and <N-3> more"`
appended when more than three are pending, while `pending_check_count` and
`pending_check_names` record the full untruncated list; five checks
Check0..Check4 give details `"Check0, Check1, Check2 and 2 more"`. -/
theorem c6_pending_checks (pd : PRData) (rv : List ReviewData)
    (cr : List CheckRunData) (th : Option (List ThreadData)) (a : PRAnalysis)
    (h : analyze_pr pd rv cr th = some a)
    (hp : pending_checks_of cr ≠ []) :
    a.blockers.filter (fun b => b.type == "PENDING_CHECKS")
        = [{ type := "PENDING_CHECKS"
             description := toString (pending_checks_of cr).length ++ " check(s) still running"
             details := some (pending_detail cr) }] ∧
    pending_detail cr
        = (if (pending_checks_of cr).length > 3 then
            String.intercalate ", "
              (((pending_checks_of cr).take 3).map (fun c => c.name.getD "Unknown"))
              ++ " and " ++ toString ((pending_checks_of cr).length - 3) ++ " more"
           else
            String.intercalate ", "
              (((pending_checks_of cr).take 3).map (fun c => c.name.getD "Unknown"))) ∧
    a.pending_check_count = (pending_checks_of cr).length ∧
    a.pending_check_names = (pending_checks_of cr).map (fun c => c.name.getD "Unknown") ∧
    pending_detail fivePendingChecks = "Check0, Check1, Check2 and 2 more" ∧
    pending_blockers fivePendingChecks
        = [{ type := "PENDING_CHECKS"
             description := "5 check(s) still running"
             details := some "Check0, Check1, Check2 and 2 more" }] := by
  obtain ⟨fn, n, t, u, hm, ha⟩ := (analyze_pr_eq_some_iff pd rv cr th a).mp h
  subst ha
  refine ⟨?_, ?_, rfl, rfl, rfl, rfl⟩
  · rw [build_blockers]
    unfold all_blockers
    split
    · rename_i hcond
      exfalso
      have hpre : pre_protection_blockers pd rv cr (th.getD []) = [] :=
        List.isEmpty_iff.mp (Bool.and_elim_right hcond)
      have := (pre_eq_nil_parts hpre).2.1
      rw [pending_blockers_eq cr hp] at this
      exact List.cons_ne_nil _ _ this
    · unfold pre_protection_blockers
      simp only [List.filter_append]
      rw [filter_type_eq_nil (fun b hb => type_of_mem_conflict hb) (by decide),
        filter_type_eq_nil (fun b hb => type_of_mem_failing hb) (by decide),
        filter_type_eq_self (fun b hb => type_of_mem_pending hb),
        filter_type_eq_nil (fun b hb => type_of_mem_changes hb) (by decide),
        filter_type_eq_nil (fun b hb => type_of_mem_missing hb) (by decide),
        filter_type_eq_nil (fun b hb => type_of_mem_comment hb) (by decide)]
      simp [pending_blockers_eq cr hp]
  · rfl

/-- Witness for C6 at a concrete input. -/
theorem c6_pending_checks_witness :
    pendingAnalysis.blockers.filter (fun b => b.type == "PENDING_CHECKS")
        = [{ type := "PENDING_CHECKS"
             description :=
               toString (pending_checks_of fivePendingChecks).length
                 ++ " check(s) still running"
             details := some (pending_detail fivePendingChecks) }] ∧
    pending_detail fivePendingChecks
        = (if (pending_checks_of fivePendingChecks).length > 3 then
            String.intercalate ", "
              (((pending_checks_of fivePendingChecks).take 3).map
                (fun c => c.name.getD "Unknown"))
              ++ " and " ++ toString ((pending_checks_of fivePendingChecks).length - 3)
              ++ " more"
           else
            String.intercalate ", "
              (((pending_checks_of fivePendingChecks).take 3).map
                (fun c => c.name.getD "Unknown"))) ∧
    pendingAnalysis.pending_check_count = (pending_checks_of fivePendingChecks).length ∧
    pendingAnalysis.pending_check_names
        = (pending_checks_of fivePendingChecks).map (fun c => c.name.getD "Unknown") ∧
    pending_detail fivePendingChecks = "Check0, Check1, Check2 and 2 more" ∧
    pending_blockers fivePendingChecks
        = [{ type := "PENDING_CHECKS"
             description := "5 check(s) still running"
             details := some "Check0, Check1, Check2 and 2 more" }] :=
  c6_pending_checks samplePR [] fivePendingChecks none pendingAnalysis rfl (by decide)

/-! ## C7 -/

lemma splitNL_ne_nil (l : List Char) : splitNL l ≠ [] := by
  induction l with
  | nil => simp [splitNL]
  | cons x xs ih =>
    unfold splitNL
    split
    · simp
    · cases hsp : splitNL xs with
      | nil => simp
      | cons r rs => simp

/-- for a non-empty summary the detail is the last five stripped lines
joined with the four-space indent. -/
lemma error_detail_of_ne (s : String) (hs : s ≠ "") :
    error_detail_of s
      = some (String.intercalate "\n    " (takeLast 5 (pySplitLines (pyStrip s)))) := by
  have h1 : (s == "") = false := beq_eq_false_iff_ne.mpr hs
  have h2 : pySplitLines (pyStrip s) ≠ [] := by
    unfold pySplitLines
    simp [splitNL_ne_nil]
  have h3 : (takeLast 5 (pySplitLines (pyStrip s))).isEmpty = false := by
    rw [List.isEmpty_eq_false]
    unfold takeLast
    intro hcon
    have hlen := congrArg List.length hcon
    rw [List.length_drop] at hlen
    simp only [List.length_nil] at hlen
    have hne : (pySplitLines (pyStrip s)).length ≠ 0 := by
      simpa [List.length_eq_zero] using h2
    omega
  simp [error_detail_of, h1, h3]

/-- A failing check run whose output summary has seven lines L1..L7. -/
def sevenLineCheck : CheckRunData :=
  { status := some "completed", conclusion := some "failure", name := some "CI / Test",
    output := some { summary := some "L1\nL2\nL3\nL4\nL5\nL6\nL7" } }

/-- The analysis of `samplePR` with the single failing `sevenLineCheck`. -/
def failingAnalysis : PRAnalysis :=
  build_analysis "owner/repo" 123 "Test PR" "https://github.com/owner/repo/pull/123"
    samplePR [] [sevenLineCheck] none

/-- C7: one `FAILING_CHECK` blocker per check run with conclusion
`failure`, in original list order, whose detail is the output summary
split on line breaks, truncated to the last five lines and rejoined with a
fixed indent; an empty or absent summary gives an absent detail; a
seven-line summary L1..L7 yields a detail containing L3..L7 and excluding
L1 and L2. -/
theorem c7_failing_checks (pd : PRData) (rv : List ReviewData)
    (cr : List CheckRunData) (th : Option (List ThreadData)) (a : PRAnalysis)
    (h : analyze_pr pd rv cr th = some a) :
    a.blockers.filter (fun b => b.type == "FAILING_CHECK")
        = (failed_checks_of cr).map mk_failing_blocker ∧
    (∀ s, s ≠ "" → error_detail_of s
        = some (String.intercalate "\n    " (takeLast 5 (pySplitLines (pyStrip s))))) ∧
    error_detail_of "" = none ∧
    error_detail_of "L1\nL2\nL3\nL4\nL5\nL6\nL7"
        = some "L3\n    L4\n    L5\n    L6\n    L7" ∧
    mk_failing_blocker sevenLineCheck
        = { type := "FAILING_CHECK"
            description := "Check \x27CI / Test\x27 failed"
            details := some "L3\n    L4\n    L5\n    L6\n    L7" } ∧
    ("L3".toList <:+: "L3\n    L4\n    L5\n    L6\n    L7".toList) ∧
    ("L4".toList <:+: "L3\n    L4\n    L5\n    L6\n    L7".toList) ∧
    ("L5".toList <:+: "L3\n    L4\n    L5\n    L6\n    L7".toList) ∧
    ("L6".toList <:+: "L3\n    L4\n    L5\n    L6\n    L7".toList) ∧
    ("L7".toList <:+: "L3\n    L4\n    L5\n    L6\n    L7".toList) ∧
    ¬("L1".toList <:+: "L3\n    L4\n    L5\n    L6\n    L7".toList) ∧
    ¬("L2".toList <:+: "L3\n    L4\n    L5\n    L6\n    L7".toList) := by
  obtain ⟨fn, n, t, u, hm, ha⟩ := (analyze_pr_eq_some_iff pd rv cr th a).mp h
  subst ha
  refine ⟨?_, error_detail_of_ne, rfl, rfl, rfl, by decide, by decide, by decide,
    by decide, by decide, by decide, by decide⟩
  rw [build_blockers]
  unfold all_blockers
  split
  · rename_i hcond
    have hpre : pre_protection_blockers pd rv cr (th.getD []) = [] :=
      List.isEmpty_iff.mp (Bool.and_elim_right hcond)
    have hfail : failing_blockers cr = [] := (pre_eq_nil_parts hpre).1
    rw [hpre, List.nil_append]
    rw [show (failed_checks_of cr).map mk_failing_blocker = failing_blockers cr from rfl,
      hfail]
    exact filter_type_eq_nil (l := [branch_protection_blocker])
      (fun b hb => by rw [List.mem_singleton.mp hb]) (by decide)
  · unfold pre_protection_blockers
    simp only [List.filter_append]
    rw [filter_type_eq_nil (fun b hb => type_of_mem_conflict hb) (by decide),
      filter_type_eq_self (fun b hb => type_of_mem_failing hb),
      filter_type_eq_nil (fun b hb => type_of_mem_pending hb) (by decide),
      filter_type_eq_nil (fun b hb => type_of_mem_changes hb) (by decide),
      filter_type_eq_nil (fun b hb => type_of_mem_missing hb) (by decide),
      filter_type_eq_nil (fun b hb => type_of_mem_comment hb) (by decide)]
    simp [failing_blockers]

/-- Witness for C7 at a concrete input. -/
theorem c7_failing_checks_witness :
    failingAnalysis.blockers.filter (fun b => b.type == "FAILING_CHECK")
        = (failed_checks_of [sevenLineCheck]).map mk_failing_blocker ∧
    (∀ s, s ≠ "" → error_detail_of s
        = some (String.intercalate "\n    " (takeLast 5 (pySplitLines (pyStrip s))))) ∧
    error_detail_of "" = none ∧
    error_detail_of "L1\nL2\nL3\nL4\nL5\nL6\nL7"
        = some "L3\n    L4\n    L5\n    L6\n    L7" ∧
    mk_failing_blocker sevenLineCheck
        = { type := "FAILING_CHECK"
            description := "Check \x27CI / Test\x27 failed"
            details := some "L3\n    L4\n    L5\n    L6\n    L7" } ∧
    ("L3".toList <:+: "L3\n    L4\n    L5\n    L6\n    L7".toList) ∧
    ("L4".toList <:+: "L3\n    L4\n    L5\n    L6\n    L7".toList) ∧
    ("L5".toList <:+: "L3\n    L4\n    L5\n    L6\n    L7".toList) ∧
    ("L6".toList <:+: "L3\n    L4\n    L5\n    L6\n    L7".toList) ∧
    ("L7".toList <:+: "L3\n    L4\n    L5\n    L6\n    L7".toList) ∧
    ¬("L1".toList <:+: "L3\n    L4\n    L5\n    L6\n    L7".toList) ∧
    ¬("L2".toList <:+: "L3\n    L4\n    L5\n    L6\n    L7".toList) :=
  c7_failing_checks samplePR [] [sevenLineCheck] none failingAnalysis rfl

/-! ## C5 -/

lemma pre_no_bp {pd : PRData} {rv : List ReviewData} {cr : List CheckRunData}
    {ths : List ThreadData} :
    ∀ b ∈ pre_protection_blockers pd rv cr ths, b.type ≠ "BRANCH_PROTECTION" := by
  intro b hb
  rcases type_of_mem_pre hb with hx | hx | hx | hx | hx | hx <;> simp [hx]

lemma pre_filter_bp {pd : PRData} {rv : List ReviewData} {cr : List CheckRunData}
    {ths : List ThreadData} :
    (pre_protection_blockers pd rv cr ths).filter
        (fun b => b.type == "BRANCH_PROTECTION") = [] :=
  filter_eq_nil_of _ _ (fun b hb => beq_eq_false_iff_ne.mpr (pre_no_bp b hb))

/-- `samplePR` with an upstream "blocked" mergeable state. -/
def blockedPR : PRData :=
  { samplePR with mergeable_state := some "blocked" }

/-- The analysis of `blockedPR` with no reviews, checks or threads. -/
def blockedAnalysis : PRAnalysis :=
  build_analysis "owner/repo" 123 "Test PR" "https://github.com/owner/repo/pull/123"
    blockedPR [] [] none

/-- C5: a `BRANCH_PROTECTION` blocker appears in the output iff
`mergeable_state == "blocked"` and no blocker was appended by any earlier
detection step, and then exactly one appears; whenever any other blocker
exists it is suppressed (no earlier step ever emits that type). -/
theorem c5_branch_protection_catch_all (pd : PRData) (rv : List ReviewData)
    (cr : List CheckRunData) (th : Option (List ThreadData)) (a : PRAnalysis)
    (h : analyze_pr pd rv cr th = some a) :
    a.blockers.filter (fun b => b.type == "BRANCH_PROTECTION")
        = (if pd.mergeable_state.getD "unknown" == "blocked"
              && (pre_protection_blockers pd rv cr (th.getD [])).isEmpty
           then [branch_protection_blocker] else []) ∧
    ((∃ b ∈ a.blockers, b.type = "BRANCH_PROTECTION") ↔
      (pd.mergeable_state.getD "unknown" = "blocked" ∧
        pre_protection_blockers pd rv cr (th.getD []) = [])) ∧
    (∀ b ∈ pre_protection_blockers pd rv cr (th.getD []),
      b.type ≠ "BRANCH_PROTECTION") := by
  obtain ⟨fn, n, t, u, hm, ha⟩ := (analyze_pr_eq_some_iff pd rv cr th a).mp h
  subst ha
  refine ⟨?_, ?_, pre_no_bp⟩
  · rw [build_blockers]
    unfold all_blockers
    split
    · rw [List.filter_append, pre_filter_bp, List.nil_append]
      rfl
    · exact pre_filter_bp
  · constructor
    · rintro ⟨b, hbm, hbt⟩
      rw [build_blockers] at hbm
      unfold all_blockers at hbm
      split at hbm
      · rename_i hcond
        have h1 := Bool.and_elim_left hcond
        have h2 := Bool.and_elim_right hcond
        exact ⟨by simpa using h1, List.isEmpty_iff.mp h2⟩
      · exact absurd hbt (pre_no_bp b hbm)
    · rintro ⟨h1, h2⟩
      refine ⟨branch_protection_blocker, ?_, rfl⟩
      rw [build_blockers]
      unfold all_blockers
      rw [if_pos (by simp [h1, h2])]
      exact List.mem_append_right _ (List.mem_singleton.mpr rfl)

/-- Witness for C5 at a concrete input. -/
theorem c5_branch_protection_catch_all_witness :
    blockedAnalysis.blockers.filter (fun b => b.type == "BRANCH_PROTECTION")
        = (if blockedPR.mergeable_state.getD "unknown" == "blocked"
              && (pre_protection_blockers blockedPR [] [] ((none : Option (List ThreadData)).getD [])).isEmpty
           then [branch_protection_blocker] else []) ∧
    ((∃ b ∈ blockedAnalysis.blockers, b.type = "BRANCH_PROTECTION") ↔
      (blockedPR.mergeable_state.getD "unknown" = "blocked" ∧
        pre_protection_blockers blockedPR [] [] ((none : Option (List ThreadData)).getD []) = [])) ∧
    (∀ b ∈ pre_protection_blockers blockedPR [] [] ((none : Option (List ThreadData)).getD []),
      b.type ≠ "BRANCH_PROTECTION") :=
  c5_branch_protection_catch_all blockedPR [] [] none blockedAnalysis rfl
